import Mathlib

/-!
Verification of the multi-provider AI request gateway of the EBM diagnosis
service: the error classifier (`src/utils/errorClassification.ts`), the
fallback orchestrator (`src/utils/fallbackWrapper.ts`), the embedding model
resolution of the provider registry (`src/lib/providers/providerRegistry.ts`)
and the embedding utility math (`src/services/embedding.ts`), shallowly
embedded in Lean.

Modelling choices:
- A JavaScript error value, as far as the classifier inspects it, is a pair
  of an optional numeric HTTP status (present when the value is an object
  with a `response` whose `status` is a number) and an optional message
  (present when the value is an `instanceof Error`).  Statuses are `Int`.
- Closure invocation is an observable effect: the orchestrator embedding
  returns, next to the `Except` result, the list of stages it invoked.
- JavaScript numbers in the embedding-vector math are `NaN`, the two IEEE
  infinities, or exact finite rationals (`JsNumber`); the operations the
  code performs (addition guarded by `Number.isNaN`, division by the vector
  count, which is at least 1 on every reachable division) follow the IEEE
  special-value rules on `NaN` and the infinities and are exact on finite
  values.  The one IEEE behaviour outside the model is finite addition
  overflowing to an infinity; an overflow produces an infinity, never `NaN`,
  so the non-`NaN` conclusions proved below are unaffected by it.
-/

set_option autoImplicit false

/-- JavaScript `haystack.startsWith needle` on character lists. -/
def leadsWith : List Char → List Char → Bool
  | [], _ => true
  | _ :: _, [] => false
  | a :: as, b :: bs => a == b && leadsWith as bs

/-- Occurrence of `needle` as a contiguous run inside the haystack. -/
def occursIn (needle : List Char) : List Char → Bool
  | [] => needle.isEmpty
  | c :: rest => leadsWith needle (c :: rest) || occursIn needle rest

/-- JavaScript `s.includes(sub)`: substring containment. -/
def jsIncludes (s sub : String) : Bool := occursIn sub.data s.data

/-- JavaScript `s.toLowerCase()` (ASCII as exercised by the classifier). -/
def jsToLower (s : String) : String := ⟨s.data.map Char.toLower⟩

/-- The `errorType` union of `ErrorClassification` in
`src/utils/errorClassification.ts`. -/
inductive ErrorType where
  | transient
  | permanent
  | rate_limit
  | auth
  | model_unavailable
  deriving DecidableEq, Repr

/-- `ErrorClassification` from `src/utils/errorClassification.ts`. -/
structure ErrorClassification where
  shouldFallback : Bool
  errorType : ErrorType
  description : String
  deriving DecidableEq, Repr

/-- A JavaScript error value as inspected by `classifyError`:
`responseStatus = some s` when the value is an object with a `response`
field whose `status` is the number `s`; `message = some m` when the value
is an `instanceof Error` with message `m`. -/
structure JsError where
  responseStatus : Option Int
  message : Option String
  deriving DecidableEq, Repr

/-- The network/timeout/connection-reset keyword test of `classifyError`
(`src/utils/errorClassification.ts` lines 83-88), on the lowered message. -/
def netKeyword (message : String) : Bool :=
  jsIncludes message "timeout" || jsIncludes message "network" ||
    jsIncludes message "econnreset" || jsIncludes message "connection"

/-- The api-key/unauthorized/authentication keyword test of `classifyError`
(lines 97-101), on the lowered message. -/
def authKeyword (message : String) : Bool :=
  jsIncludes message "api key" || jsIncludes message "unauthorized" ||
    jsIncludes message "authentication"

/-- The model-not-found keyword test of `classifyError` (lines 110-113), on
the lowered message. -/
def modelKeyword (message : String) : Bool :=
  jsIncludes message "model" &&
    (jsIncludes message "not found" || jsIncludes message "unavailable")

/-- The rate-limit/quota keyword test of `classifyError` (line 122), on the
lowered message. -/
def rateKeyword (message : String) : Bool :=
  jsIncludes message "rate limit" || jsIncludes message "quota exceeded"

/-- The message-matching tail of `classifyError`
(`src/utils/errorClassification.ts` lines 79-136): the `instanceof Error`
keyword cascade, then the default classification.  The status branch of
`classifyError` falls through to this code when no status case returns. -/
def classifyMessage (error : JsError) : ErrorClassification :=
  match error.message with
  | some msg =>
    let message := jsToLower msg
    if netKeyword message then
      ⟨true, .transient, "Network/connection error"⟩
    else if authKeyword message then
      ⟨true, .auth, "API key or authentication error"⟩
    else if modelKeyword message then
      ⟨true, .model_unavailable, "Model not available"⟩
    else if rateKeyword message then
      ⟨true, .rate_limit, "Rate limit or quota exceeded"⟩
    else
      ⟨true, .transient, "Unknown error - treating as transient"⟩
  | none => ⟨true, .transient, "Unknown error - treating as transient"⟩

/-- `classifyError` from `src/utils/errorClassification.ts`: the HTTP-status
cascade first, falling through to the message cascade and the default. -/
def classifyError (error : JsError) : ErrorClassification :=
  match error.responseStatus with
  | some status =>
    if 500 ≤ status ∧ status < 600 then
      ⟨true, .transient, "Server error " ++ toString status ++ " - transient issue"⟩
    else if status = 429 then
      ⟨true, .rate_limit, "Rate limit exceeded"⟩
    else if status = 401 ∨ status = 403 then
      ⟨true, .auth, "Authentication/authorization error"⟩
    else if status = 400 then
      ⟨true, .permanent, "Bad request - likely permanent issue"⟩
    else if status = 404 then
      ⟨true, .model_unavailable, "Model not found or unavailable"⟩
    else classifyMessage error
  | none => classifyMessage error

/-- `shouldFallbackImmediately` from `src/utils/errorClassification.ts`. -/
def shouldFallbackImmediately (error : JsError) : Bool :=
  let classification := classifyError error
  classification.errorType == .auth ||
    classification.errorType == .rate_limit ||
    classification.errorType == .permanent ||
    classification.errorType == .model_unavailable

/-- `FallbackConfig` from `src/utils/fallbackWrapper.ts`. -/
structure FallbackConfig where
  enableFallback : Bool
  primaryMaxRetries : Nat
  fallbackMaxRetries : Nat
  primaryProvider : String
  fallbackProvider : String
  deriving Repr

/-- The two operation closures `withFallback` may invoke. -/
inductive Stage where
  | primary
  | fallback
  deriving DecidableEq, Repr

/-- `withFallback` from `src/utils/fallbackWrapper.ts`: run the primary
operation with the primary retry budget; on failure classify the error,
throw it unchanged when fallback is disabled or the classification says not
to fall back, otherwise run the fallback operation and, on fallback failure,
rethrow the original primary error.  The second component records which
closures were invoked, in order. -/
def withFallback {α : Type} (primaryOperation fallbackOperation : Nat → Except JsError α)
    (config : FallbackConfig) : Except JsError α × List Stage :=
  match primaryOperation config.primaryMaxRetries with
  | .ok result => (.ok result, [Stage.primary])
  | .error primaryError =>
    let classification := classifyError primaryError
    if !config.enableFallback then
      (.error primaryError, [Stage.primary])
    else if !classification.shouldFallback then
      (.error primaryError, [Stage.primary])
    else
      match fallbackOperation config.fallbackMaxRetries with
      | .ok result => (.ok result, [Stage.primary, Stage.fallback])
      | .error _fallbackError => (.error primaryError, [Stage.primary, Stage.fallback])

/-- `ModelConfig` from `src/lib/providers/providerRegistry.ts`.  The provider
tag is a string at runtime (TypeScript's union of string literals is erased);
the opaque `settings` map is never read by the code under verification and is
omitted. -/
structure ModelConfig where
  provider : String
  modelId : String
  deriving DecidableEq, Repr

/-- `DEFAULT_MODELS.embedding.primary` from
`src/lib/providers/providerRegistry.ts`. -/
def DEFAULT_MODELS_embedding_primary : ModelConfig :=
  ⟨"openai", "text-embedding-3-large"⟩

/-- `DEFAULT_MODELS.embedding.fallback` from
`src/lib/providers/providerRegistry.ts`. -/
def DEFAULT_MODELS_embedding_fallback : ModelConfig :=
  ⟨"google", "text-embedding-004"⟩

/-- An `instanceof Error` value with no attached HTTP response. -/
def jsErrorMsg (m : String) : JsError := ⟨none, some m⟩

/-- `ProviderRegistry.getEmbeddingModel` from
`src/lib/providers/providerRegistry.ts`: a pure switch on the provider tag
that either throws (for `"e2e"` and for any unknown tag) or returns the
registry handle string `provider:modelId` — no network is touched. -/
def getEmbeddingModel (config : ModelConfig) : Except JsError String :=
  if config.provider = "e2e" then
    .error (jsErrorMsg
      "E2E Networks doesn't support embedding models yet. Use OpenAI, Google, or DeepInfra instead.")
  else if config.provider = "openai" then .ok ("openai:" ++ config.modelId)
  else if config.provider = "google" then .ok ("google:" ++ config.modelId)
  else if config.provider = "deepinfra" then .ok ("deepinfra:" ++ config.modelId)
  else .error (jsErrorMsg ("Unknown embedding provider: " ++ config.provider))

/-- A JavaScript (IEEE double) number as the embedding-vector math observes
it: `NaN`, one of the two infinities, or a finite value.  Finite values are
exact rationals; IEEE overflow of finite addition to an infinity is the one
behaviour this drops, and an overflow yields an infinity, never `NaN`. -/
inductive JsNumber where
  | nan
  | posInf
  | negInf
  | finite (q : ℚ)
  deriving DecidableEq, Repr

/-- JavaScript `Number.isNaN`. -/
def jsIsNaN : JsNumber → Bool
  | .nan => true
  | _ => false

/-- The number is a finite value: neither `NaN` nor an infinity. -/
def jsIsFinite : JsNumber → Bool
  | .finite _ => true
  | _ => false

/-- The number is finite or `NaN` — i.e. not an infinity. -/
def finiteOrNaN (x : JsNumber) : Bool := jsIsNaN x || jsIsFinite x

namespace Embedding

/-- IEEE addition on `JsNumber`: `NaN` propagates, opposite infinities
cancel to `NaN`, an infinity absorbs every finite addend, and finite
addition is exact. -/
def numAdd : JsNumber → JsNumber → JsNumber
  | .nan, _ => .nan
  | _, .nan => .nan
  | .posInf, .negInf => .nan
  | .negInf, .posInf => .nan
  | .posInf, _ => .posInf
  | _, .posInf => .posInf
  | .negInf, _ => .negInf
  | _, .negInf => .negInf
  | .finite a, .finite b => .finite (a + b)

/-- IEEE division of a `JsNumber` by a vector count.  Every reachable
division in `averageEmbeddings` has `n = embeddings.length ≥ 1`: `NaN`
divides to `NaN`, an infinity keeps its sign, a finite value divides
exactly. -/
def numDivNat : JsNumber → Nat → JsNumber
  | .nan, _ => .nan
  | .posInf, _ => .posInf
  | .negInf, _ => .negInf
  | .finite q, n => .finite (q / (n : ℚ))

/-- One coordinate of the summing loop of `averageEmbeddings`
(`src/services/embedding.ts` lines 200-204): `NaN` entries are skipped,
every other entry — infinities included, `Number.isNaN` being false on
them — is added to the accumulator. -/
def sumCoord (a x : JsNumber) : JsNumber :=
  if jsIsNaN x then a else numAdd a x

/-- One iteration of the summing loop of `averageEmbeddings`
(`src/services/embedding.ts` lines 195-205): reject a vector whose length
differs from the first vector's, otherwise add it coordinatewise. -/
def sumStep (dimensions : Nat) (acc embedding : List JsNumber) :
    Except String (List JsNumber) :=
  if embedding.length ≠ dimensions then
    .error "Invalid input: Inconsistent dimensions in embeddings"
  else
    .ok (List.zipWith sumCoord acc embedding)

/-- `Embedding.averageEmbeddings` from `src/services/embedding.ts`: throw on
an empty input (the `!embeddings[0]` half of the guard never fires on its own,
an inner array being truthy), sum all vectors into a zero-initialised
accumulator skipping `NaN` coordinates, then divide every coordinate by the
number of vectors. -/
def averageEmbeddings (embeddings : List (List JsNumber)) :
    Except String (List JsNumber) :=
  match embeddings with
  | [] => .error "Invalid input: Empty array or empty inner arrays"
  | first :: _ =>
    let dimensions := first.length
    let init : List JsNumber := List.replicate dimensions (.finite 0)
    do
      let summed ← embeddings.foldlM (sumStep dimensions) init
      return summed.map fun a => numDivNat a embeddings.length

/-- The fallback-enabled path of `Embedding.embed` from
`src/services/embedding.ts` (lines 96-117): both closures resolve their model
through the registry *inside* the closure and then perform the provider call,
and the pair is run under `withFallback` with both retry budgets 2.  The
provider call is the external collaborator and is passed in as `embedCall`,
mapping a resolved model handle and a retry budget to its outcome. -/
def embed {α : Type} (embedCall : String → Nat → Except JsError α)
    (modelConfig : ModelConfig) : Except JsError α × List Stage :=
  withFallback
    (fun maxRetries => (getEmbeddingModel modelConfig).bind fun model =>
      embedCall model maxRetries)
    (fun maxRetries => (getEmbeddingModel DEFAULT_MODELS_embedding_fallback).bind fun model =>
      embedCall model maxRetries)
    { enableFallback := true
      primaryMaxRetries := 2
      fallbackMaxRetries := 2
      primaryProvider := modelConfig.provider
      fallbackProvider := DEFAULT_MODELS_embedding_fallback.provider }

end Embedding

/-- A provider-call stub for exercising `Embedding.embed`: the resolved
fallback handle (`google:text-embedding-004`) succeeds, anything else fails.
With an `e2e` primary config the primary closure never reaches this call,
its model resolution having already thrown. -/
def e2eEmbedCall : String → Nat → Except JsError Nat := fun model _ =>
  if model = "google:text-embedding-004" then .ok 0
  else .error (jsErrorMsg "provider call failed")

example : classifyError ⟨none, some "Connection timeout"⟩ =
    ⟨true, .transient, "Network/connection error"⟩ := by decide

example : classifyError ⟨some 503, none⟩ =
    ⟨true, .transient, "Server error 503 - transient issue"⟩ := by decide

example : shouldFallbackImmediately ⟨some 429, none⟩ = true := by decide

example : Embedding.averageEmbeddings [[.finite 1, .finite 2], [.finite 3, .finite 4]] =
    .ok [.finite 2, .finite 3] := by
  simp [Embedding.averageEmbeddings, Embedding.sumStep, Embedding.sumCoord, Embedding.numAdd,
    Embedding.numDivNat, jsIsNaN, List.foldlM, bind, Except.bind, pure, Except.pure]
  norm_num

example : Embedding.averageEmbeddings [[.nan, .finite 2], [.finite 4, .finite 4]] =
    .ok [.finite 2, .finite 3] := by
  simp [Embedding.averageEmbeddings, Embedding.sumStep, Embedding.sumCoord, Embedding.numAdd,
    Embedding.numDivNat, jsIsNaN, List.foldlM, bind, Except.bind, pure, Except.pure]
  norm_num

example : getEmbeddingModel ⟨"e2e", "m"⟩ = .error (jsErrorMsg
    "E2E Networks doesn't support embedding models yet. Use OpenAI, Google, or DeepInfra instead.") := by
  rfl

example :
    (Embedding.embed (fun model _ =>
      if model = "google:text-embedding-004" then .ok (0 : Nat)
      else .error (jsErrorMsg "primary call unreachable")) ⟨"e2e", "m"⟩) =
    (.ok 0, [Stage.primary, Stage.fallback]) := by rfl

/-- Every branch of `classifyError` sets `shouldFallback := true`. -/
theorem classify_shouldFallback (e : JsError) :
    (classifyError e).shouldFallback = true := by
  obtain ⟨st, msg⟩ := e
  cases st <;> cases msg <;>
    simp only [classifyError, classifyMessage] <;>
    split_ifs <;> rfl

/-- C1: with `enableFallback = false`, a failing primary operation makes
`withFallback` rethrow exactly the primary error, and the fallback closure
is never invoked. -/
theorem fallback_disabled_rethrows_primary {α : Type}
    (p f : Nat → Except JsError α) (cfg : FallbackConfig) (ep : JsError)
    (hdis : cfg.enableFallback = false)
    (hp : p cfg.primaryMaxRetries = .error ep) :
    (withFallback p f cfg).fst = .error ep ∧
      Stage.fallback ∉ (withFallback p f cfg).snd := by
  simp [withFallback, hp, hdis]

/-- Witness for C1 at a concrete failing primary. -/
theorem fallback_disabled_rethrows_primary_witness :
    (withFallback (fun _ => Except.error (jsErrorMsg "boom"))
        (fun _ => Except.ok (0 : Nat)) ⟨false, 2, 2, "p", "g"⟩).fst =
      Except.error (jsErrorMsg "boom") ∧
    Stage.fallback ∉ (withFallback (fun _ => Except.error (jsErrorMsg "boom"))
        (fun _ => Except.ok (0 : Nat)) ⟨false, 2, 2, "p", "g"⟩).snd :=
  fallback_disabled_rethrows_primary _ _ _ _ rfl rfl

/-- C2: with fallback enabled, when the primary fails with `ep` and the
fallback fails with `ef ≠ ep`, `withFallback` rethrows the original primary
error `ep`, not `ef`. -/
theorem both_fail_rethrows_primary {α : Type}
    (p f : Nat → Except JsError α) (cfg : FallbackConfig) (ep ef : JsError)
    (hen : cfg.enableFallback = true)
    (hp : p cfg.primaryMaxRetries = .error ep)
    (hf : f cfg.fallbackMaxRetries = .error ef)
    (_hne : ep ≠ ef) :
    (withFallback p f cfg).fst = .error ep := by
  simp [withFallback, hp, hen, hf, classify_shouldFallback]

/-- Witness for C2 at a concrete pair of distinct failures. -/
theorem both_fail_rethrows_primary_witness :
    (withFallback (fun _ => Except.error (jsErrorMsg "primary down") :
        Nat → Except JsError Nat)
      (fun _ => Except.error (jsErrorMsg "fallback down"))
      ⟨true, 2, 2, "p", "g"⟩).fst = Except.error (jsErrorMsg "primary down") :=
  both_fail_rethrows_primary _ _ _ _ _ rfl rfl rfl (by decide)

/-- C3: `withFallback` returns the first successful stage's value: a
successful primary is returned as-is with the fallback never invoked, for
every configuration; and with fallback enabled, a failing primary followed
by a fallback success `v` yields `v`. -/
theorem first_success_wins :
    (∀ (α : Type) (p f : Nat → Except JsError α) (cfg : FallbackConfig) (v : α),
      p cfg.primaryMaxRetries = .ok v →
      (withFallback p f cfg).fst = .ok v ∧
        Stage.fallback ∉ (withFallback p f cfg).snd) ∧
    (∀ (α : Type) (p f : Nat → Except JsError α) (cfg : FallbackConfig)
        (ep : JsError) (v : α),
      cfg.enableFallback = true →
      p cfg.primaryMaxRetries = .error ep →
      f cfg.fallbackMaxRetries = .ok v →
      (withFallback p f cfg).fst = .ok v) := by
  constructor
  · intro α p f cfg v hp
    simp [withFallback, hp]
  · intro α p f cfg ep v hen hp hf
    simp [withFallback, hp, hen, hf, classify_shouldFallback]

/-- Witness for C3 at concrete operations for both conjuncts. -/
theorem first_success_wins_witness :
    ((withFallback (fun _ => Except.ok (7 : Nat))
        (fun _ => Except.error (jsErrorMsg "unused")) ⟨true, 2, 2, "p", "g"⟩).fst =
      Except.ok 7 ∧
      Stage.fallback ∉ (withFallback (fun _ => Except.ok (7 : Nat))
        (fun _ => Except.error (jsErrorMsg "unused")) ⟨true, 2, 2, "p", "g"⟩).snd) ∧
    (withFallback (fun _ => Except.error (jsErrorMsg "primary down") :
        Nat → Except JsError Nat)
      (fun _ => Except.ok 9) ⟨true, 2, 2, "p", "g"⟩).fst = Except.ok 9 :=
  ⟨first_success_wins.1 Nat _ _ _ 7 rfl,
   first_success_wins.2 Nat _ _ _ (jsErrorMsg "primary down") 9 rfl rfl rfl⟩

/-- C7: `classifyError` is a total function on the error model that marks
every classification with `shouldFallback = true`; consequently, whenever
fallback is enabled and the primary fails, the `withFallback` branch that
rethrows because `classification.shouldFallback` is false is unreachable and
the fallback closure is always invoked. -/
theorem classifier_always_allows_fallback :
    (∀ e : JsError, (classifyError e).shouldFallback = true) ∧
    (∀ (α : Type) (p f : Nat → Except JsError α) (cfg : FallbackConfig)
        (ep : JsError),
      cfg.enableFallback = true →
      p cfg.primaryMaxRetries = .error ep →
      Stage.fallback ∈ (withFallback p f cfg).snd) := by
  refine ⟨classify_shouldFallback, ?_⟩
  intro α p f cfg ep hen hp
  cases hf : f cfg.fallbackMaxRetries <;>
    simp [withFallback, hp, hen, hf, classify_shouldFallback]

/-- Witness for C7: the fallback closure runs on a concrete failing primary. -/
theorem classifier_always_allows_fallback_witness :
    Stage.fallback ∈ (withFallback (fun _ => Except.error (jsErrorMsg "boom") :
        Nat → Except JsError Nat)
      (fun _ => Except.ok 1) ⟨true, 2, 2, "p", "g"⟩).snd :=
  classifier_always_allows_fallback.2 Nat _ _ _ (jsErrorMsg "boom") rfl rfl

/-- C4: for every error carrying an HTTP response with numeric status `s`,
`classifyError` maps 5xx to `transient`, 429 to `rate_limit`, 401/403 to
`auth`, 400 to `permanent`, 404 to `model_unavailable`, and sets
`shouldFallback = true` in each of these cases. -/
theorem status_classification (msg : Option String) (s : Int) :
    ((500 ≤ s ∧ s < 600) →
      (classifyError ⟨some s, msg⟩).errorType = .transient ∧
        (classifyError ⟨some s, msg⟩).shouldFallback = true) ∧
    (s = 429 →
      (classifyError ⟨some s, msg⟩).errorType = .rate_limit ∧
        (classifyError ⟨some s, msg⟩).shouldFallback = true) ∧
    ((s = 401 ∨ s = 403) →
      (classifyError ⟨some s, msg⟩).errorType = .auth ∧
        (classifyError ⟨some s, msg⟩).shouldFallback = true) ∧
    (s = 400 →
      (classifyError ⟨some s, msg⟩).errorType = .permanent ∧
        (classifyError ⟨some s, msg⟩).shouldFallback = true) ∧
    (s = 404 →
      (classifyError ⟨some s, msg⟩).errorType = .model_unavailable ∧
        (classifyError ⟨some s, msg⟩).shouldFallback = true) := by
  refine ⟨?_, ?_, ?_, ?_, ?_⟩ <;> intro h <;>
    simp only [classifyError] <;> split_ifs <;>
    first
      | exact ⟨rfl, rfl⟩
      | (exfalso; omega)

/-- Witness for C4 at statuses 503, 429, 401, 400 and 404. -/
theorem status_classification_witness :
    ((classifyError ⟨some 503, none⟩).errorType = .transient ∧
      (classifyError ⟨some 503, none⟩).shouldFallback = true) ∧
    ((classifyError ⟨some 429, none⟩).errorType = .rate_limit ∧
      (classifyError ⟨some 429, none⟩).shouldFallback = true) ∧
    ((classifyError ⟨some 401, none⟩).errorType = .auth ∧
      (classifyError ⟨some 401, none⟩).shouldFallback = true) ∧
    ((classifyError ⟨some 400, none⟩).errorType = .permanent ∧
      (classifyError ⟨some 400, none⟩).shouldFallback = true) ∧
    ((classifyError ⟨some 404, none⟩).errorType = .model_unavailable ∧
      (classifyError ⟨some 404, none⟩).shouldFallback = true) :=
  ⟨(status_classification none 503).1 (by decide),
   (status_classification none 429).2.1 rfl,
   (status_classification none 401).2.2.1 (Or.inl rfl),
   (status_classification none 400).2.2.2.1 rfl,
   (status_classification none 404).2.2.2.2 rfl⟩

/-- C8: for an `instanceof Error` without an HTTP status, `classifyError`
matches case-insensitive substrings of the message in priority order —
network/timeout/connection keywords give `transient`, then
api-key/unauthorized/authentication give `auth`, then "model" with
"not found"/"unavailable" gives `model_unavailable`, then
"rate limit"/"quota exceeded" gives `rate_limit`, and anything unmatched
defaults to `transient` with `shouldFallback = true`; in particular the
message "Connection timeout" is classified `transient`. -/
theorem message_classification :
    (∀ m : String,
      (netKeyword (jsToLower m) = true →
        (classifyError (jsErrorMsg m)).errorType = .transient) ∧
      (netKeyword (jsToLower m) = false → authKeyword (jsToLower m) = true →
        (classifyError (jsErrorMsg m)).errorType = .auth) ∧
      (netKeyword (jsToLower m) = false → authKeyword (jsToLower m) = false →
        modelKeyword (jsToLower m) = true →
        (classifyError (jsErrorMsg m)).errorType = .model_unavailable) ∧
      (netKeyword (jsToLower m) = false → authKeyword (jsToLower m) = false →
        modelKeyword (jsToLower m) = false → rateKeyword (jsToLower m) = true →
        (classifyError (jsErrorMsg m)).errorType = .rate_limit) ∧
      (netKeyword (jsToLower m) = false → authKeyword (jsToLower m) = false →
        modelKeyword (jsToLower m) = false → rateKeyword (jsToLower m) = false →
        classifyError (jsErrorMsg m) =
          ⟨true, .transient, "Unknown error - treating as transient"⟩)) ∧
    (classifyError (jsErrorMsg "Connection timeout")).errorType = .transient := by
  constructor
  · intro m
    refine ⟨?_, ?_, ?_, ?_, ?_⟩ <;> intros <;>
      simp_all [classifyError, classifyMessage, jsErrorMsg]
  · decide

/-- Witness for C8 at concrete messages exercising every cascade branch. -/
theorem message_classification_witness :
    (classifyError (jsErrorMsg "Connection timeout")).errorType = .transient ∧
    (classifyError (jsErrorMsg "Invalid API key")).errorType = .auth ∧
    (classifyError (jsErrorMsg "Model xyz not found")).errorType
      = .model_unavailable ∧
    (classifyError (jsErrorMsg "quota exceeded for project")).errorType
      = .rate_limit ∧
    classifyError (jsErrorMsg "mysterious failure") =
      ⟨true, .transient, "Unknown error - treating as transient"⟩ :=
  ⟨((message_classification.1 "Connection timeout").1 (by decide)),
   ((message_classification.1 "Invalid API key").2.1 (by decide) (by decide)),
   ((message_classification.1 "Model xyz not found").2.2.1
     (by decide) (by decide) (by decide)),
   ((message_classification.1 "quota exceeded for project").2.2.2.1
     (by decide) (by decide) (by decide) (by decide)),
   ((message_classification.1 "mysterious failure").2.2.2.2
     (by decide) (by decide) (by decide) (by decide))⟩

/-- C9: `shouldFallbackImmediately` holds exactly when the classification
kind is `auth`, `rate_limit`, `permanent` or `model_unavailable` —
equivalently, exactly when it is not `transient`. -/
theorem immediate_fallback_iff_not_transient (e : JsError) :
    shouldFallbackImmediately e = true ↔
      ((classifyError e).errorType = .auth ∨
        (classifyError e).errorType = .rate_limit ∨
        (classifyError e).errorType = .permanent ∨
        (classifyError e).errorType = .model_unavailable) ∧
      (classifyError e).errorType ≠ .transient := by
  unfold shouldFallbackImmediately
  cases h : (classifyError e).errorType <;> simp [h]

/-- Witness for C9 at a concrete rate-limit error. -/
theorem immediate_fallback_iff_not_transient_witness :
    shouldFallbackImmediately ⟨some 429, none⟩ = true :=
  (immediate_fallback_iff_not_transient ⟨some 429, none⟩).mpr (by decide)

/-- Counterexample to C5: on `[[1,2],[3,4]]` the code returns the
coordinatewise mean `[2,3]` ((1+3)/2 and (2+4)/2), not `[2,2]` as the spec's
example states. -/
theorem average_embeddings_spec_example_refuted :
    Embedding.averageEmbeddings [[.finite 1, .finite 2], [.finite 3, .finite 4]] ≠
      Except.ok [.finite 2, .finite 2] := by
  intro h
  rw [show Embedding.averageEmbeddings
        [[.finite 1, .finite 2], [.finite 3, .finite 4]] =
      Except.ok [.finite 2, .finite 3] by
    simp [Embedding.averageEmbeddings, Embedding.sumStep, Embedding.sumCoord,
      Embedding.numAdd, Embedding.numDivNat, jsIsNaN, List.foldlM, bind,
      Except.bind, pure, Except.pure]
    norm_num] at h
  simp at h

/-- C5 amended: `averageEmbeddings [[1,2],[3,4]]` returns the coordinatewise
mean `[2,3]`; the empty input fails with the caller-input error
"Invalid input: Empty array or empty inner arrays"; mismatched vector
lengths such as `[[1,2],[3]]` fail with the dimension-mismatch error. -/
theorem average_embeddings_examples :
    Embedding.averageEmbeddings [[.finite 1, .finite 2], [.finite 3, .finite 4]] =
      Except.ok [.finite 2, .finite 3] ∧
    Embedding.averageEmbeddings [] =
      Except.error "Invalid input: Empty array or empty inner arrays" ∧
    Embedding.averageEmbeddings [[.finite 1, .finite 2], [.finite 3]] =
      Except.error "Invalid input: Inconsistent dimensions in embeddings" := by
  refine ⟨?_, rfl, ?_⟩
  · simp [Embedding.averageEmbeddings, Embedding.sumStep, Embedding.sumCoord,
      Embedding.numAdd, Embedding.numDivNat, jsIsNaN, List.foldlM, bind,
      Except.bind, pure, Except.pure]
    norm_num
  · simp [Embedding.averageEmbeddings, Embedding.sumStep, Embedding.sumCoord,
      Embedding.numAdd, jsIsNaN, List.foldlM, bind, Except.bind, pure,
      Except.pure]

/-- A sum-loop coordinate step keeps a finite accumulator coordinate finite
when the incoming entry is finite or `NaN`: `NaN` is skipped by the
`Number.isNaN` guard and a finite value is added exactly. -/
theorem sumCoord_finite (a x : JsNumber) (ha : jsIsFinite a = true)
    (hx : finiteOrNaN x = true) :
    jsIsFinite (Embedding.sumCoord a x) = true := by
  cases x <;> cases a <;>
    simp_all [Embedding.sumCoord, Embedding.numAdd, finiteOrNaN, jsIsNaN,
      jsIsFinite]

/-- Adding one infinity-free vector into an all-finite accumulator keeps
every coordinate finite. -/
theorem zipWith_sumCoord_finite :
    ∀ (acc v : List JsNumber), (∀ a ∈ acc, jsIsFinite a = true) →
      (∀ x ∈ v, finiteOrNaN x = true) →
      ∀ y ∈ List.zipWith Embedding.sumCoord acc v, jsIsFinite y = true := by
  intro acc
  induction acc with
  | nil => intro v _ _ y hy; simp at hy
  | cons a as ih =>
    intro v hacc hv y hy
    cases v with
    | nil => simp at hy
    | cons x xs =>
      simp only [List.zipWith] at hy
      rcases List.mem_cons.mp hy with h | h
      · subst h
        exact sumCoord_finite a x (hacc a (List.mem_cons_self a as))
          (hv x (List.mem_cons_self x xs))
      · exact ih xs (fun b hb => hacc b (List.mem_cons_of_mem a hb))
          (fun b hb => hv b (List.mem_cons_of_mem x hb)) y h

/-- The summing loop of `averageEmbeddings` succeeds on vectors of the
expected length and, when no input coordinate is an infinity, keeps every
accumulator coordinate finite. -/
theorem foldlM_sum_ok (dims : Nat) :
    ∀ (l : List (List JsNumber)) (acc : List JsNumber),
      (∀ v ∈ l, v.length = dims) →
      (∀ v ∈ l, ∀ x ∈ v, finiteOrNaN x = true) →
      (∀ a ∈ acc, jsIsFinite a = true) →
      ∃ summed, l.foldlM (Embedding.sumStep dims) acc = Except.ok summed ∧
        ∀ a ∈ summed, jsIsFinite a = true := by
  intro l
  induction l with
  | nil => intro acc _ _ hacc; exact ⟨acc, rfl, hacc⟩
  | cons v vs ih =>
    intro acc hlen hfin hacc
    have hv : v.length = dims := hlen v (List.mem_cons_self v vs)
    have hstep : Embedding.sumStep dims acc v =
        Except.ok (List.zipWith Embedding.sumCoord acc v) := by
      simp [Embedding.sumStep, hv]
    obtain ⟨summed, hfold, hsome⟩ := ih (List.zipWith Embedding.sumCoord acc v)
      (fun w hw => hlen w (List.mem_cons_of_mem v hw))
      (fun w hw => hfin w (List.mem_cons_of_mem v hw))
      (zipWith_sumCoord_finite acc v hacc (hfin v (List.mem_cons_self v vs)))
    refine ⟨summed, ?_, hsome⟩
    simp [List.foldlM_cons, hstep, hfold, bind, Except.bind]

/-- Counterexample to C10 as stated: with a well-formed — indeed finite —
first vector `[1]`, the infinities in the later vectors pass the
`Number.isNaN` guard (`Number.isNaN` is false on them), cancel to `NaN` in
the coordinate sum, and the output coordinate is `NaN`. -/
theorem average_infinities_nan_counterexample :
    (∀ x ∈ [JsNumber.finite 1], jsIsNaN x = false) ∧
    Embedding.averageEmbeddings
        [[JsNumber.finite 1], [JsNumber.posInf], [JsNumber.negInf]] =
      Except.ok [JsNumber.nan] := by
  constructor
  · intro x hx
    rw [List.mem_singleton.mp hx]
    rfl
  · rfl

/-- C10 amended: `averageEmbeddings` skips `NaN` coordinates when summing
(contributing 0 for them) while dividing every coordinate sum by the total
number of vectors — e.g. `averageEmbeddings [[NaN, 2], [4, 4]] = [2, 3]` —
but a well-formed first vector does not prevent a `NaN` output coordinate:
infinities of opposite sign pass the `Number.isNaN` guard and cancel to
`NaN`.  No output coordinate is `NaN` when every input coordinate is finite
or `NaN` (an infinity-free input). -/
theorem average_skips_nan :
    (∀ (first : List JsNumber) (rest : List (List JsNumber)),
      (∀ v ∈ first :: rest, v.length = first.length) →
      (∀ v ∈ first :: rest, ∀ x ∈ v, finiteOrNaN x = true) →
      ∃ out, Embedding.averageEmbeddings (first :: rest) = Except.ok out ∧
        ∀ x ∈ out, jsIsNaN x = false) ∧
    Embedding.averageEmbeddings [[.nan, .finite 2], [.finite 4, .finite 4]] =
      Except.ok [.finite 2, .finite 3] := by
  constructor
  · intro first rest hlen hfin
    have hinit : ∀ a ∈ List.replicate first.length (JsNumber.finite 0),
        jsIsFinite a = true := by
      intro a ha
      rw [List.eq_of_mem_replicate ha]
      rfl
    obtain ⟨summed, hfold, hsome⟩ :=
      foldlM_sum_ok first.length (first :: rest)
        (List.replicate first.length (.finite 0)) hlen hfin hinit
    refine ⟨summed.map fun a => Embedding.numDivNat a (first :: rest).length,
      ?_, ?_⟩
    · simp [Embedding.averageEmbeddings, hfold, bind, Except.bind, pure,
        Except.pure]
    · intro x hx
      obtain ⟨a, ha, rfl⟩ := List.mem_map.mp hx
      have h := hsome a ha
      cases a <;> simp_all [Embedding.numDivNat, jsIsNaN, jsIsFinite]
  · simp [Embedding.averageEmbeddings, Embedding.sumStep, Embedding.sumCoord,
      Embedding.numAdd, Embedding.numDivNat, jsIsNaN, List.foldlM, bind,
      Except.bind, pure, Except.pure]
    norm_num

/-- Witness for C10's amended claim on the infinity-free input
`[[1], [NaN]]`. -/
theorem average_skips_nan_witness :
    ∃ out, Embedding.averageEmbeddings [[JsNumber.finite 1], [JsNumber.nan]] =
        Except.ok out ∧
      ∀ x ∈ out, jsIsNaN x = false :=
  average_skips_nan.1 [JsNumber.finite 1] [[JsNumber.nan]]
    (by simp) (by decide)

/-- C6 amended: `getEmbeddingModel` fails synchronously — before any
provider call — with a configuration-style `Error` for provider `"e2e"` and
for every unknown provider tag; but because `Embedding.embed` resolves the
primary model *inside* the closure run under `withFallback`, that error is
caught and classified like any provider failure (every classification allows
fallback), so the fallback provider IS invoked rather than the configuration
error being surfaced directly. -/
theorem resolver_fails_fast_but_fallback_runs :
    (∀ mid : String, getEmbeddingModel ⟨"e2e", mid⟩ = Except.error (jsErrorMsg
      "E2E Networks doesn't support embedding models yet. Use OpenAI, Google, or DeepInfra instead.")) ∧
    (∀ p mid : String,
      p ≠ "e2e" → p ≠ "openai" → p ≠ "google" → p ≠ "deepinfra" →
      getEmbeddingModel ⟨p, mid⟩ =
        Except.error (jsErrorMsg ("Unknown embedding provider: " ++ p))) ∧
    (∀ (α : Type) (embedCall : String → Nat → Except JsError α)
        (mc : ModelConfig) (ep : JsError),
      getEmbeddingModel mc = Except.error ep →
      Stage.fallback ∈ (Embedding.embed embedCall mc).snd) := by
  refine ⟨fun mid => rfl, ?_, ?_⟩
  · intro p mid h1 h2 h3 h4
    simp [getEmbeddingModel, h1, h2, h3, h4]
  · intro α ecall mc ep hres
    simp only [Embedding.embed, withFallback, hres, classify_shouldFallback,
      bind, Except.bind, Bool.not_true, Bool.false_eq_true, if_false]
    split <;> simp

/-- Witness for C6's amended claim at provider `"e2e"` and the unknown
provider `"anthropic"`. -/
theorem resolver_fails_fast_but_fallback_runs_witness :
    getEmbeddingModel ⟨"e2e", "text-embedding-3-large"⟩ =
      Except.error (jsErrorMsg
        "E2E Networks doesn't support embedding models yet. Use OpenAI, Google, or DeepInfra instead.") ∧
    getEmbeddingModel ⟨"anthropic", "claude-3"⟩ =
      Except.error (jsErrorMsg ("Unknown embedding provider: " ++ "anthropic")) ∧
    Stage.fallback ∈
      (Embedding.embed e2eEmbedCall ⟨"e2e", "text-embedding-3-large"⟩).snd :=
  ⟨resolver_fails_fast_but_fallback_runs.1 "text-embedding-3-large",
   resolver_fails_fast_but_fallback_runs.2.1 "anthropic" "claude-3"
     (by decide) (by decide) (by decide) (by decide),
   resolver_fails_fast_but_fallback_runs.2.2 Nat e2eEmbedCall
     ⟨"e2e", "text-embedding-3-large"⟩ _ rfl⟩

/-- Counterexample to C6 as stated: an `Embedding.embed` call whose primary
`ModelConfig` names provider `"e2e"` invokes the fallback closure (the trace
is `[primary, fallback]`) and, the fallback succeeding, returns its value —
the configuration error is not surfaced at all. -/
theorem embed_config_error_fallback_counterexample :
    (Embedding.embed e2eEmbedCall ⟨"e2e", "text-embedding-3-large"⟩).snd =
      [Stage.primary, Stage.fallback] ∧
    (Embedding.embed e2eEmbedCall ⟨"e2e", "text-embedding-3-large"⟩).fst =
      Except.ok 0 := by
  constructor <;> rfl
